import Mathlib

/-
Verification of the driver core of the dbus-broker repository
(src/src/bus/driver.c) against its natural-language specification.

The development shallowly embeds the dispatch loop, the reply builder, the
name-change notifier, the signature verifier, the method tables, peer
teardown (goodbye), BecomeMonitor, the unicast forwarding engine and the
SELinux credential query.  External collaborators (connection queue, peer
registry, name registry, activation queue, policy snapshots) are modelled
by their documented contracts: their results appear as explicit parameters
or as small state-transition functions marked "Modelled from the spec:".
Message emission is modelled as an event trace.
-/

/-- The flat DRIVER_E_* error-kind enum of driver.c. -/
inductive DriverErr where
  | invalid_message
  | peer_not_registered
  | peer_not_yet_registered
  | peer_already_registered
  | peer_not_privileged
  | unexpected_message_type
  | unexpected_path
  | unexpected_interface
  | unexpected_method
  | unexpected_property
  | readonly_property
  | unexpected_signature
  | unexpected_reply
  | forward_failed
  | quota
  | unexpected_flags
  | unexpected_environment_update
  | send_denied
  | receive_denied
  | expected_reply_exists
  | name_reserved
  | name_unique
  | name_invalid
  | name_refused
  | name_not_found
  | name_not_activatable
  | name_owner_not_found
  | peer_not_found
  | destination_not_found
  | match_invalid
  | match_not_found
  | adt_not_supported
  | selinux_not_supported
  | protocol_violation
  deriving DecidableEq, Repr

/-- Result of a driver entry point: success, a DRIVER_E_* code, or a fatal
(negative, folded) error that aborts the dispatch. -/
inductive DriverResult where
  | ok
  | err (e : DriverErr)
  | fatal
  deriving DecidableEq, Repr

/-- Result of message_parse_metadata as observed by driver_dispatch:
zero (ok), a positive MESSAGE_E_* code (malformed message), or a negative
fatal error. -/
inductive ParseResult where
  | ok
  | malformed
  | fatal
  deriving DecidableEq, Repr

/-- Observable message emissions of the driver (unicasts, broadcast
signals, activation enqueues), in program order. -/
inductive Event where
  | nameLost (peerId : Nat) (name : String)
  | nameOwnerChanged (name oldOwner newOwner : String)
  | nameAcquired (peerId : Nat) (name : String)
  | methodReply (peerId serial : Nat)
  | errorReply (peerId serial : Nat) (errorName body : String)
  | activationEnqueued (destination : String)
  | unicastQueued (receiverId : Nat)
  deriving DecidableEq, Repr

/-- Recogniser for NameLost unicasts. -/
def Event.isNameLost : Event → Bool
  | .nameLost _ _ => true
  | _ => false

/-- Recogniser for NameOwnerChanged broadcast signals. -/
def Event.isNameOwnerChangedSignal : Event → Bool
  | .nameOwnerChanged _ _ _ => true
  | _ => false

/-- Recogniser for NameAcquired unicasts. -/
def Event.isNameAcquired : Event → Bool
  | .nameAcquired _ _ => true
  | _ => false

/-- address_to_string(ADDRESS_INIT_ID(id)): the unique address of a peer. -/
def address_to_string (id : Nat) : String :=
  (":1.") ++ toString id

/-- The error_strings table of driver_error_to_string.  The C function
asserts a string exists for every code it is called on;
DRIVER_E_PROTOCOL_VIOLATION has no entry (it is never translated). -/
def driver_error_to_string : DriverErr → String
  | .invalid_message => ("Invalid message body")
  | .peer_not_registered => ("Message forwarding attempted without calling Hello()")
  | .peer_not_yet_registered => ("Hello() was not yet called")
  | .peer_already_registered => ("Hello() already called")
  | .peer_not_privileged => ("The caller does not have the necessary privileged to call this method")
  | .unexpected_message_type => ("Unexpected message type")
  | .unexpected_path => ("Invalid object path")
  | .unexpected_interface => ("Invalid interface")
  | .unexpected_method => ("Invalid method call")
  | .unexpected_property => ("Invalid property")
  | .readonly_property => ("Cannot set read-only property")
  | .unexpected_signature => ("Invalid signature for method")
  | .unexpected_reply => ("No pending reply with that serial")
  | .forward_failed => ("Request could not be forwarded to the parent process")
  | .quota => ("Sending user's quota exceeded")
  | .unexpected_flags => ("Invalid flags")
  | .unexpected_environment_update => ("User is not authorized to update environment variables")
  | .send_denied => ("Sender is not authorized to send message")
  | .receive_denied => ("Receiver is not authorized to receive message")
  | .expected_reply_exists => ("Pending reply with that serial already exists")
  | .name_reserved => ("org.freedesktop.DBus is a reserved name")
  | .name_unique => ("The name is a unique name")
  | .name_invalid => ("The name is not a valid well-known name")
  | .name_refused => ("Request to own name refused by policy")
  | .name_not_found => ("The name does not exist")
  | .name_not_activatable => ("The name is not activatable")
  | .name_owner_not_found => ("The name does not have an owner")
  | .peer_not_found => ("The connection does not exist")
  | .destination_not_found => ("Destination does not exist")
  | .match_invalid => ("Invalid match rule")
  | .match_not_found => ("The match does not exist")
  | .adt_not_supported => ("Solaris ADT is not supported")
  | .selinux_not_supported => ("SELinux is not supported")
  | .protocol_violation => ("")

/-- driver_send_error: builds an error message towards @peerId answering
@serial.  If serial is 0 (NO_REPLY_EXPECTED) nothing is sent and the call
still succeeds.  The connection queue is modelled as accepting. -/
def driver_send_error (peerId serial : Nat) (error body : String) :
    DriverResult × List Event :=
  if serial = 0 then (.ok, [])
  else (.ok, [.errorReply peerId serial error body])

/-- driver_send_reply: finalizes the serialized method return for @peerId.
If serial is 0 the finished message is discarded and the call still
succeeds.  The connection queue is modelled as accepting. -/
def driver_send_reply (peerId serial : Nat) : DriverResult × List Event :=
  if serial = 0 then (.ok, [])
  else (.ok, [.methodReply peerId serial])

/-- driver_notify_name_lost: unicast NameLost(name) to the peer. -/
def driver_notify_name_lost (peerId : Nat) (name : String) : List Event :=
  [.nameLost peerId name]

/-- driver_notify_name_acquired: unicast NameAcquired(name) to the peer. -/
def driver_notify_name_acquired (peerId : Nat) (name : String) : List Event :=
  [.nameAcquired peerId name]

/-- driver_notify_name_owner_changed: broadcast of the NameOwnerChanged
signal to monitors and matching subscribers (the audience computation and
per-receiver policy filtering are collaborator side effects; the single
event stands for the signal emission). -/
def driver_notify_name_owner_changed (name oldOwner newOwner : String) :
    List Event :=
  [.nameOwnerChanged name oldOwner newOwner]

/-- driver_name_owner_changed: emit the NameLost / NameOwnerChanged /
NameAcquired triple for one ownership transition.  A missing owner renders
as the empty address; a missing name defaults to the old (else new)
owner's unique address. -/
def driver_name_owner_changed (name : Option String)
    (old_owner new_owner : Option Nat) : List Event :=
  let old_owner_str := match old_owner with
    | some o => address_to_string o
    | none => ("")
  let new_owner_str := match new_owner with
    | some n => address_to_string n
    | none => ("")
  let name' := match name with
    | some n => n
    | none => match old_owner with
      | some _ => old_owner_str
      | none => new_owner_str
  (match old_owner with
    | some o => driver_notify_name_lost o name'
    | none => []) ++
  driver_notify_name_owner_changed name' old_owner_str new_owner_str ++
  (match new_owner with
    | some n => driver_notify_name_acquired n name'
    | none => [])

/-- The comparison loop of driver_dvar_verify_signature_in:
for (i = 1; i + 1 < type->length; i++) compare signature[i-1] with
type[i].element.  The loop counter is i; the remaining iteration count
(type->length - 1 - i at entry) is carried as structural fuel. -/
def driver_dvar_verify_go (type signature : List Char) : Nat → Nat → Bool
  | _, 0 => true
  | i, fuel + 1 =>
    if signature.getD (i - 1) 'A' = type.getD i 'A' then
      driver_dvar_verify_go type signature (i + 1) fuel
    else false

/-- driver_dvar_verify_signature_in: the incoming signature matches the
method's declared input type (whose element string carries outer tuple
parentheses) iff the lengths agree (type->length == strlen(signature)+2)
and every inner element agrees (the comparison loop starts at i = 1 and
runs type->length - 2 iterations). -/
def driver_dvar_verify_signature_in (type signature : List Char) :
    Except DriverErr Unit :=
  if type.length ≠ signature.length + 2 then .error .unexpected_signature
  else if driver_dvar_verify_go type signature 1 (type.length - 2) then .ok ()
  else .error .unexpected_signature

/-- A well-known-name registry entry: ownership list (primary owner
first) and whether an activation record is attached. -/
structure NameEntry where
  name : String
  owners : List Nat
  hasActivation : Bool
  deriving DecidableEq, Repr

/-- The bus name registry (the slice of bus state the verified claims
touch). -/
structure BusState where
  names : List NameEntry
  deriving DecidableEq, Repr

/-- A connected peer: lifecycle state plus the containers driver_goodbye
tears down.  replySlots are the (sender id, serial) pairs other peers
hold against this peer; ownedReplies the serials this peer awaits. -/
structure Peer where
  id : Nat
  registered : Bool
  monitor : Bool
  privileged : Bool
  ownedMatches : List String
  ownedReplies : List Nat
  senderMatches : List String
  ownedNames : List String
  nameOwnerChangedMatches : List String
  replySlots : List (Nat × Nat)
  deriving DecidableEq, Repr

/-- Modelled from the spec: peer_release_name_ownership (name registry,
not under src/) removes the peer's entry from the name's ownership list;
a NameChange is reported iff the peer was the primary owner, carrying the
new primary owner (next in queue) or none. -/
def name_release (bus : BusState) (pid : Nat) (n : String) :
    BusState × Option (String × Option Nat) :=
  match bus.names.find? (fun e => e.name = n) with
  | none => (bus, none)
  | some entry =>
    let owners' := entry.owners.erase pid
    let bus' : BusState :=
      ⟨bus.names.map (fun e => if e.name = n then { e with owners := owners' } else e)⟩
    if entry.owners.head? = some pid then
      (bus', some (n, owners'.head?))
    else
      (bus', none)

/-- The name-release loop of driver_goodbye: release every owned name;
when not silent and the release changed the primary owner, emit the
name-change triple. -/
def driver_goodbye_release_names (bus : BusState) (pid : Nat)
    (names : List String) (silent : Bool) : BusState × List Event :=
  match names with
  | [] => (bus, [])
  | n :: rest =>
    let step := name_release bus pid n
    let evs := match step.2 with
      | some ch =>
        if silent then []
        else driver_name_owner_changed (some ch.1) (some pid) ch.2
      | none => []
    let next := driver_goodbye_release_names step.1 pid rest silent
    (next.1, evs ++ next.2)

/-- driver_goodbye: flush matches, drop owned replies, flush the sender
registry, release all names (notifying unless silent), unregister (with a
disappearance name-change unless silent) or stop monitoring, flush the
name-owner-changed registry, and fail every reply slot others hold
against the peer (with a NoReply error unless silent). -/
def driver_goodbye (bus : BusState) (peer : Peer) (silent : Bool) :
    BusState × Peer × List Event :=
  let peer1 : Peer :=
    { peer with ownedMatches := [], ownedReplies := [], senderMatches := [] }
  let rel := driver_goodbye_release_names bus peer1.id peer1.ownedNames silent
  let peer2 : Peer := { peer1 with ownedNames := [] }
  let step3 : Peer × List Event :=
    if peer2.registered then
      ({ peer2 with registered := false },
       if silent then [] else driver_name_owner_changed none (some peer2.id) none)
    else if peer2.monitor then
      ({ peer2 with monitor := false }, [])
    else
      (peer2, [])
  let peer4 : Peer := { step3.1 with nameOwnerChangedMatches := [] }
  let evs5 :=
    if silent then []
    else peer4.replySlots.flatMap (fun s =>
      (driver_send_error s.1 s.2 ("org.freedesktop.DBus.Error.NoReply")
        ("Remote peer disconnected")).2)
  let peer5 : Peer := { peer4 with replySlots := [] }
  (rel.1, peer5, rel.2 ++ step3.2 ++ evs5)

/-- Modelled from the spec: peer_become_monitor (peer layer, not under
src/) promotes the peer to monitor state and installs the accumulated
match set. -/
def peer_become_monitor (peer : Peer) (matchSet : List String) : Peer :=
  { peer with monitor := true, ownedMatches := matchSet }

/-- driver_method_become_monitor: privilege check, match-rule
accumulation (an empty rule array is treated as one empty, wildcard,
rule; rule parsing may fail with MATCH_INVALID, modelled by @rulesValid),
input re-verification (@readOk), flags must be zero; then reply,
goodbye(silent=false), and promotion to monitor. -/
def driver_method_become_monitor (bus : BusState) (peer : Peer)
    (serial : Nat) (rules : List String) (flags : Nat)
    (rulesValid readOk : Bool) : DriverResult × BusState × Peer × List Event :=
  if !peer.privileged then (.err .peer_not_privileged, bus, peer, [])
  else if !rulesValid then (.err .match_invalid, bus, peer, [])
  else if !readOk then (.err .invalid_message, bus, peer, [])
  else if flags ≠ 0 then (.err .unexpected_flags, bus, peer, [])
  else
    let reply := driver_send_reply peer.id serial
    let g := driver_goodbye bus peer false
    let matchSet := if rules.isEmpty then [("")] else rules
    let peer' := peer_become_monitor g.2.1 matchSet
    (.ok, g.1, peer', reply.2 ++ g.2.2)

/-- driver_method_hello: fails if already registered, then registers the
peer, replies with its unique address, and emits the appearance
name-change (no old owner, new owner = the peer). -/
def driver_method_hello (peer : Peer) (serial : Nat) (readOk : Bool) :
    DriverResult × Peer × List Event :=
  if peer.registered then (.err .peer_already_registered, peer, [])
  else if !readOk then (.err .invalid_message, peer, [])
  else
    let peer' : Peer := { peer with registered := true }
    let reply := driver_send_reply peer.id serial
    (.ok, peer', reply.2 ++ driver_name_owner_changed none none (some peer.id))

/-- One row of the static driver method tables: method name,
needs-registration flag, pinned object path (if any) and the element
string of the declared input type (out-types are not needed by any
claim). -/
structure DriverMethod where
  name : String
  needs_registration : Bool
  path : Option String
  inType : String
  deriving DecidableEq, Repr

/-- The org.freedesktop.DBus method table. -/
def driver_methods : List DriverMethod := [
  ⟨("Hello"), false, none, ("()")⟩,
  ⟨("AddMatch"), true, none, ("(s)")⟩,
  ⟨("RemoveMatch"), true, none, ("(s)")⟩,
  ⟨("RequestName"), true, none, ("(su)")⟩,
  ⟨("ReleaseName"), true, none, ("(s)")⟩,
  ⟨("GetConnectionCredentials"), true, none, ("(s)")⟩,
  ⟨("GetConnectionUnixUser"), true, none, ("(s)")⟩,
  ⟨("GetConnectionUnixProcessID"), true, none, ("(s)")⟩,
  ⟨("GetAdtAuditSessionData"), true, none, ("(s)")⟩,
  ⟨("GetConnectionSELinuxSecurityContext"), true, none, ("(s)")⟩,
  ⟨("StartServiceByName"), true, none, ("(su)")⟩,
  ⟨("ListQueuedOwners"), true, none, ("(s)")⟩,
  ⟨("ListNames"), true, none, ("()")⟩,
  ⟨("ListActivatableNames"), true, none, ("()")⟩,
  ⟨("NameHasOwner"), true, none, ("(s)")⟩,
  ⟨("UpdateActivationEnvironment"), true, some ("/org/freedesktop/DBus"), ("(a{ss})")⟩,
  ⟨("GetNameOwner"), true, none, ("(s)")⟩,
  ⟨("ReloadConfig"), true, none, ("()")⟩,
  ⟨("GetId"), true, none, ("()")⟩]

/-- The org.freedesktop.DBus.Monitoring method table. -/
def monitoring_methods : List DriverMethod := [
  ⟨("BecomeMonitor"), true, some ("/org/freedesktop/DBus"), ("(asu)")⟩]

/-- The org.freedesktop.DBus.Introspectable method table. -/
def introspectable_methods : List DriverMethod := [
  ⟨("Introspect"), true, none, ("()")⟩]

/-- The org.freedesktop.DBus.Peer method table. -/
def peer_methods : List DriverMethod := [
  ⟨("Ping"), true, none, ("()")⟩,
  ⟨("GetMachineId"), true, none, ("()")⟩]

/-- The org.freedesktop.DBus.Properties method table. -/
def properties_methods : List DriverMethod := [
  ⟨("Get"), true, some ("/org/freedesktop/DBus"), ("(ss)")⟩,
  ⟨("Set"), true, some ("/org/freedesktop/DBus"), ("(ssv)")⟩,
  ⟨("GetAll"), true, some ("/org/freedesktop/DBus"), ("(s)")⟩]

/-- The interface table of driver_dispatch_interface, in scan order. -/
def driver_interfaces : List (String × List DriverMethod) := [
  (("org.freedesktop.DBus"), driver_methods),
  (("org.freedesktop.DBus.Monitoring"), monitoring_methods),
  (("org.freedesktop.DBus.Introspectable"), introspectable_methods),
  (("org.freedesktop.DBus.Peer"), peer_methods),
  (("org.freedesktop.DBus.Properties"), properties_methods)]

/-- The table scan of driver_dispatch_method: skip rows whose name
differs; a row whose name matches is taken only when the peer is
registered or the row needs no registration (otherwise scanning
continues); an exhausted table yields UNEXPECTED_METHOD.  (The source
immediately invokes driver_handle_method on the match; the embedding
returns the matched row and handling is applied by the caller.) -/
def driver_dispatch_method (registered : Bool)
    (methods : List DriverMethod) (member : String) :
    Except DriverErr DriverMethod :=
  match methods with
  | [] => .error .unexpected_method
  | m :: rest =>
    if m.name = member then
      if registered || !m.needs_registration then .ok m
      else driver_dispatch_method registered rest member
    else driver_dispatch_method registered rest member

/-- The no-interface scan of driver_dispatch_interface: try each table in
order and continue past UNEXPECTED_METHOD. -/
def driver_scan_interfaces (registered : Bool) (member : String) :
    List (String × List DriverMethod) → Except DriverErr DriverMethod
  | [] => .error .unexpected_method
  | t :: rest =>
    match driver_dispatch_method registered t.2 member with
    | .error .unexpected_method => driver_scan_interfaces registered member rest
    | r => r

/-- Method lookup of driver_dispatch_interface: with an interface, find
its table (else UNEXPECTED_INTERFACE) and scan it; without an interface,
scan all tables in fixed order. -/
def driver_find_method (registered : Bool) (interface : Option String)
    (member : String) : Except DriverErr DriverMethod :=
  match interface with
  | some i =>
    match driver_interfaces.find? (fun t => t.1 = i) with
    | none => .error .unexpected_interface
    | some t => driver_dispatch_method registered t.2 member
  | none => driver_scan_interfaces registered member driver_interfaces

/-- driver_handle_method: path pin check, input-signature verification,
then the method handler (@fn stands for the row's function pointer; the
incoming body validity is @readOk). -/
def driver_handle_method
    (fn : Peer → Nat → Bool → DriverResult × Peer × List Event)
    (m : DriverMethod) (peer : Peer) (path : String) (serial : Nat)
    (signatureIn : String) (readOk : Bool) : DriverResult × Peer × List Event :=
  if (match m.path with | some p => path ≠ p | none => false : Bool) then
    (.err .unexpected_path, peer, [])
  else
    match driver_dvar_verify_signature_in m.inType.toList signatureIn.toList with
    | .error e => (.err e, peer, [])
    | .ok _ => fn peer serial readOk

/-- driver_dispatch_interface for a method call: outbound policy check
(collaborator result @policyOk; denial yields SEND_DENIED), method
lookup, then handling. -/
def driver_dispatch_interface
    (fn : Peer → Nat → Bool → DriverResult × Peer × List Event)
    (peer : Peer) (interface : Option String) (member path signatureIn : String)
    (serial : Nat) (readOk policyOk : Bool) : DriverResult × Peer × List Event :=
  if !policyOk then (.err .send_denied, peer, [])
  else
    match driver_find_method peer.registered interface member with
    | .error e => (.err e, peer, [])
    | .ok m => driver_handle_method fn m peer path serial signatureIn readOk

/-- The remap applied by driver_dispatch_internal to results of calls
addressed to org.freedesktop.DBus: when the sender is not registered,
UNEXPECTED_INTERFACE and UNEXPECTED_METHOD become
PEER_NOT_YET_REGISTERED; every other result passes through. -/
def driver_dispatch_dbus (registered : Bool) (r : DriverResult) : DriverResult :=
  match r with
  | .err e =>
    if !registered ∧ (e = .unexpected_interface ∨ e = .unexpected_method) then
      .err .peer_not_yet_registered
    else .err e
  | x => x

/-- What the error switch of driver_dispatch does with a code: promote to
PROTOCOL_VIOLATION, translate to a wire error name and send, or (default
branch) return the code unchanged. -/
inductive ErrorAction where
  | protocolViolation
  | sendError (wireName : String)
  | passThrough
  deriving DecidableEq, Repr

/-- The error switch of driver_dispatch (the DRIVER_E_* → wire-name
translator). -/
def driver_dispatch_error_action : DriverErr → ErrorAction
  | .peer_not_registered => .protocolViolation
  | .invalid_message => .protocolViolation
  | .peer_already_registered => .sendError ("org.freedesktop.DBus.Error.Failed")
  | .peer_not_yet_registered => .sendError ("org.freedesktop.DBus.Error.AccessDenied")
  | .unexpected_path => .sendError ("org.freedesktop.DBus.Error.AccessDenied")
  | .unexpected_message_type => .sendError ("org.freedesktop.DBus.Error.AccessDenied")
  | .unexpected_reply => .sendError ("org.freedesktop.DBus.Error.AccessDenied")
  | .unexpected_environment_update => .sendError ("org.freedesktop.DBus.Error.AccessDenied")
  | .expected_reply_exists => .sendError ("org.freedesktop.DBus.Error.AccessDenied")
  | .send_denied => .sendError ("org.freedesktop.DBus.Error.AccessDenied")
  | .receive_denied => .sendError ("org.freedesktop.DBus.Error.AccessDenied")
  | .peer_not_privileged => .sendError ("org.freedesktop.DBus.Error.AccessDenied")
  | .name_refused => .sendError ("org.freedesktop.DBus.Error.AccessDenied")
  | .unexpected_interface => .sendError ("org.freedesktop.DBus.Error.UnknownInterface")
  | .unexpected_method => .sendError ("org.freedesktop.DBus.Error.UnknownMethod")
  | .unexpected_property => .sendError ("org.freedesktop.DBus.Error.UnkonwnProperty")
  | .readonly_property => .sendError ("org.freedesktop.DBus.Error.PropertyReadOnly")
  | .unexpected_signature => .sendError ("org.freedesktop.DBus.Error.InvalidArgs")
  | .unexpected_flags => .sendError ("org.freedesktop.DBus.Error.InvalidArgs")
  | .name_reserved => .sendError ("org.freedesktop.DBus.Error.InvalidArgs")
  | .name_unique => .sendError ("org.freedesktop.DBus.Error.InvalidArgs")
  | .name_invalid => .sendError ("org.freedesktop.DBus.Error.InvalidArgs")
  | .forward_failed => .sendError ("org.freedesktop.DBus.Error.LimitsExceeded")
  | .quota => .sendError ("org.freedesktop.DBus.Error.LimitsExceeded")
  | .peer_not_found => .sendError ("org.freedesktop.DBus.Error.NameHasNoOwner")
  | .name_not_found => .sendError ("org.freedesktop.DBus.Error.NameHasNoOwner")
  | .name_owner_not_found => .sendError ("org.freedesktop.DBus.Error.NameHasNoOwner")
  | .destination_not_found => .sendError ("org.freedesktop.DBus.Error.NameHasNoOwner")
  | .name_not_activatable => .sendError ("org.freedesktop.DBus.Error.ServiceUnknown")
  | .match_invalid => .sendError ("org.freedesktop.DBus.Error.MatchRuleInvalid")
  | .match_not_found => .sendError ("org.freedesktop.DBus.Error.MatchRuleNotFound")
  | .adt_not_supported => .sendError ("org.freedesktop.DBus.Error.AdtAuditDataUnknown")
  | .selinux_not_supported => .sendError ("org.freedesktop.DBus.Error.SELinuxSecurityContextUnknown")
  | .protocol_violation => .passThrough

/-- driver_dispatch: reject senders in monitor state
(PROTOCOL_VIOLATION); re-parse the header (malformed →
PROTOCOL_VIOLATION, negative → fatal); then run the internal dispatch
(result @internal) and translate its result by the error switch,
sending any wire error back to the caller. -/
def driver_dispatch (peerId : Nat) (isMonitor : Bool) (parse : ParseResult)
    (serial : Nat) (internal : DriverResult) : DriverResult × List Event :=
  if isMonitor then (.err .protocol_violation, [])
  else
    match parse with
    | .malformed => (.err .protocol_violation, [])
    | .fatal => (.fatal, [])
    | .ok =>
      match internal with
      | .fatal => (.fatal, [])
      | .ok => (.ok, [])
      | .err e =>
        match driver_dispatch_error_action e with
        | .protocolViolation => (.err .protocol_violation, [])
        | .sendError wire => driver_send_error peerId serial wire (driver_error_to_string e)
        | .passThrough => (.err e, [])

/-- Result of the collaborator peer_queue_unicast (peer layer). -/
inductive PeerQueueResult where
  | ok
  | expected_reply_exists
  | quota
  | send_denied
  | receive_denied
  deriving DecidableEq, Repr

/-- Result of the collaborator activation_queue_message. -/
inductive ActivationQueueResult where
  | ok
  | quota
  deriving DecidableEq, Repr

/-- driver_forward_unicast: resolve the destination (collaborator result
@receiver; @nameLookup is none when no name record exists, otherwise its
activation flag).  An unresolved destination fails with
DESTINATION_NOT_FOUND under NO_AUTO_START, else hands the message to the
activation (quota refusal → QUOTA), else fails with NAME_NOT_ACTIVATABLE.
A resolved destination goes through the peer-layer queue, whose codes
map verbatim. -/
def driver_forward_unicast (destination : String) (receiver : Option Nat)
    (nameLookup : Option Bool) (noAutoStart : Bool)
    (activationEnqueue : ActivationQueueResult) (peerQueue : PeerQueueResult) :
    DriverResult × List Event :=
  match receiver with
  | none =>
    if noAutoStart then (.err .destination_not_found, [])
    else
      match nameLookup with
      | some true =>
        (match activationEnqueue with
          | .ok => (.ok, [.activationEnqueued destination])
          | .quota => (.err .quota, []))
      | _ => (.err .name_not_activatable, [])
  | some rid =>
    match peerQueue with
    | .ok => (.ok, [.unicastQueued rid])
    | .expected_reply_exists => (.err .expected_reply_exists, [])
    | .quota => (.err .quota, [])
    | .send_denied => (.err .send_denied, [])
    | .receive_denied => (.err .receive_denied, [])

/-- driver_method_get_connection_selinux_security_context: read the name
(@readOk), resolve it (org.freedesktop.DBus maps to the bus itself;
otherwise the collaborator lookup @lookup must find a peer, else
PEER_NOT_FOUND), and only then require SELinux to be enabled. -/
def driver_method_get_connection_selinux_security_context
    (peer : Peer) (serial : Nat) (readOk : Bool) (name : String)
    (lookup : Option Nat) (selinuxEnabled : Bool) : DriverResult × List Event :=
  if !readOk then (.err .invalid_message, [])
  else if name = ("org.freedesktop.DBus") then
    if !selinuxEnabled then (.err .selinux_not_supported, [])
    else driver_send_reply peer.id serial
  else
    match lookup with
    | none => (.err .peer_not_found, [])
    | some _ =>
      if !selinuxEnabled then (.err .selinux_not_supported, [])
      else driver_send_reply peer.id serial

/-- A concrete bus for counterexamples and witnesses: one well-known name
primarily owned by peer 9. -/
def c1Bus : BusState := ⟨[⟨("com.example.Foo"), [9], false⟩]⟩

/-- A concrete privileged, registered peer owning com.example.Foo, one
match, one awaited reply, and one reply slot held by peer 3 (serial 7). -/
def c1Peer : Peer :=
  ⟨9, true, false, true, [("rule")], [5], [("sm")], [("com.example.Foo")],
   [("noc")], [(3, 7)]⟩

/-- A concrete fresh (unregistered, unprivileged) peer. -/
def c3Peer : Peer := ⟨12, false, false, false, [], [], [], [], [], []⟩

/-- Does the event at position i of a trace satisfy p? -/
def eventAt (evs : List Event) (i : Nat) (p : Event → Bool) : Bool :=
  match evs.get? i with
  | some e => p e
  | none => false

/-- The declared input type with the outer tuple parentheses stripped. -/
def stripOuterParens (type : List Char) : List Char :=
  (type.drop 1).dropLast

/-
Theorems.
-/

/-- Claim C5: for every method reply and every error reply built by the
driver, a caller serial of 0 (NO_REPLY_EXPECTED) makes the reply or error
be discarded without being enqueued on any connection, and the operation
still returns success. -/
theorem c5_no_reply_expected_discards (peerId serial : Nat)
    (error body : String) (h : serial = 0) :
    driver_send_reply peerId serial = (.ok, []) ∧
    driver_send_error peerId serial error body = (.ok, []) := by
  subst h
  exact ⟨rfl, rfl⟩

/-- Witness for C5 at peer 4, serial 0. -/
theorem c5_no_reply_expected_discards_witness :
    driver_send_reply 4 0 = (.ok, []) ∧
    driver_send_error 4 0 ("org.freedesktop.DBus.Error.Failed")
      ("Hello() already called") = (.ok, []) :=
  c5_no_reply_expected_discards 4 0 ("org.freedesktop.DBus.Error.Failed")
    ("Hello() already called") rfl

/-- Claim C2: driver_dispatch yields PROTOCOL_VIOLATION for senders in
monitor state and for malformed re-parsed headers, and promotes the
internal codes PEER_NOT_REGISTERED and INVALID_MESSAGE to
PROTOCOL_VIOLATION; in all four cases no error reply is emitted. -/
theorem c2_protocol_violation_promotion (peerId serial : Nat)
    (internal : DriverResult) :
    (∀ (p : ParseResult) (i : DriverResult),
      driver_dispatch peerId true p serial i = (.err .protocol_violation, [])) ∧
    driver_dispatch peerId false .malformed serial internal
      = (.err .protocol_violation, []) ∧
    driver_dispatch peerId false .ok serial (.err .peer_not_registered)
      = (.err .protocol_violation, []) ∧
    driver_dispatch peerId false .ok serial (.err .invalid_message)
      = (.err .protocol_violation, []) :=
  ⟨fun _ _ => rfl, rfl, rfl, rfl⟩

/-- Claim C9: a dispatch ending in the UNEXPECTED_PROPERTY kind sends
the caller an error reply carrying the (intentionally misspelled) wire
name org.freedesktop.DBus.Error.UnkonwnProperty. -/
theorem c9_unkonwn_property_wire_name (peerId serial : Nat) (h : serial ≠ 0) :
    driver_dispatch peerId false .ok serial (.err .unexpected_property) =
      (.ok, [.errorReply peerId serial
        ("org.freedesktop.DBus.Error.UnkonwnProperty") ("Invalid property")]) := by
  simp [driver_dispatch, driver_dispatch_error_action, driver_send_error,
    driver_error_to_string, h]

/-- Witness for C9 at peer 2, serial 7. -/
theorem c9_unkonwn_property_wire_name_witness :
    driver_dispatch 2 false .ok 7 (.err .unexpected_property) =
      (.ok, [.errorReply 2 7 ("org.freedesktop.DBus.Error.UnkonwnProperty")
        ("Invalid property")]) :=
  c9_unkonwn_property_wire_name 2 7 (by decide)

/-- Counterexample to claim C6 as stated: with the destination
unresolved, NO_AUTO_START unset and an activation record present, the
claim demands success, but when the activation enqueue is refused with
quota the forward returns QUOTA. -/
theorem c6_counterexample :
    (driver_forward_unicast ("com.example.Svc") none (some true) false
      .quota .ok).1 = .err .quota ∧
    (driver_forward_unicast ("com.example.Svc") none (some true) false
      .quota .ok).1 ≠ .ok := by
  exact ⟨rfl, by decide⟩

/-- Claim C6 (amended): for an unresolved unicast destination,
NO_AUTO_START yields DESTINATION_NOT_FOUND; otherwise, with an
activation record, the message is enqueued on the activation and the
forward succeeds provided the activation quota admits it (a quota
refusal yields QUOTA); without an activation record the result is
NAME_NOT_ACTIVATABLE. -/
theorem c6_amended_unicast_routing (dest : String) (nameLookup : Option Bool)
    (nas : Bool) (aq : ActivationQueueResult) (pq : PeerQueueResult) :
    (driver_forward_unicast dest none nameLookup true aq pq
      = (.err .destination_not_found, [])) ∧
    (nas = false → nameLookup = some true → aq = .ok →
      driver_forward_unicast dest none nameLookup nas aq pq
        = (.ok, [.activationEnqueued dest])) ∧
    (nas = false → nameLookup = some true → aq = .quota →
      (driver_forward_unicast dest none nameLookup nas aq pq).1 = .err .quota) ∧
    (nas = false → nameLookup ≠ some true →
      driver_forward_unicast dest none nameLookup nas aq pq
        = (.err .name_not_activatable, [])) := by
  refine ⟨rfl, ?_, ?_, ?_⟩
  · intro h1 h2 h3
    subst h1; subst h2; subst h3
    rfl
  · intro h1 h2 h3
    subst h1; subst h2; subst h3
    rfl
  · intro h1 h2
    subst h1
    rcases nameLookup with _ | b
    · rfl
    · cases b
      · rfl
      · exact absurd rfl h2

/-- Witness for the amended C6: a pending activation accepts the
message and the forward succeeds. -/
theorem c6_amended_unicast_routing_witness :
    driver_forward_unicast ("com.example.Svc") none (some true) false .ok .ok
      = (.ok, [.activationEnqueued ("com.example.Svc")]) :=
  (c6_amended_unicast_routing ("com.example.Svc") (some true) false .ok
    .ok).2.1 rfl rfl rfl

/-- Claim C10: GetConnectionSELinuxSecurityContext resolves the named
peer before the SELinux-enabled check: an unresolvable name yields
PEER_NOT_FOUND even with SELinux disabled, and SELINUX_NOT_SUPPORTED is
only produced when the name is org.freedesktop.DBus or resolves to a
peer. -/
theorem c10_resolution_before_selinux (peer : Peer) (serial : Nat)
    (name : String) (enabled : Bool) (h : name ≠ ("org.freedesktop.DBus")) :
    (driver_method_get_connection_selinux_security_context peer serial true
      name none enabled).1 = .err .peer_not_found ∧
    (∀ (nm : String) (lk : Option Nat),
      (driver_method_get_connection_selinux_security_context peer serial true
        nm lk enabled).1 = .err .selinux_not_supported →
      (nm = ("org.freedesktop.DBus") ∨ lk.isSome = true)) := by
  constructor
  · simp [driver_method_get_connection_selinux_security_context, h]
  · intro nm lk hres
    by_cases hnm : nm = ("org.freedesktop.DBus")
    · exact Or.inl hnm
    · rcases lk with _ | pid
      · simp [driver_method_get_connection_selinux_security_context, hnm] at hres
      · exact Or.inr rfl

/-- Witness for C10: unknown name, SELinux disabled, still
PEER_NOT_FOUND. -/
theorem c10_resolution_before_selinux_witness :
    (driver_method_get_connection_selinux_security_context c3Peer 4 true
      ("com.example.Bar") none false).1 = .err .peer_not_found :=
  (c10_resolution_before_selinux c3Peer 4 ("com.example.Bar") false
    (by decide)).1

/-- The comparison loop accepts exactly when every compared position
agrees: starting at counter i with the given fuel, signature[i+k-1]
equals type[i+k] for all k below the fuel. -/
theorem driver_dvar_verify_go_iff (type signature : List Char) :
    ∀ (fuel i : Nat),
      driver_dvar_verify_go type signature i fuel = true ↔
      ∀ k, k < fuel →
        signature.getD (i + k - 1) 'A' = type.getD (i + k) 'A' := by
  intro fuel
  induction fuel with
  | zero =>
    intro i
    simp [driver_dvar_verify_go]
  | succ f ih =>
    intro i
    constructor
    · intro h k hk
      rw [driver_dvar_verify_go] at h
      by_cases he : signature.getD (i - 1) 'A' = type.getD i 'A'
      · rw [if_pos he] at h
        rcases k with _ | k
        · simpa using he
        · have hrec := (ih (i + 1)).mp h k (by omega)
          have e1 : i + 1 + k = i + (k + 1) := by omega
          rw [e1] at hrec
          exact hrec
      · rw [if_neg he] at h
        cases h
    · intro h
      have he : signature.getD (i - 1) 'A' = type.getD i 'A' := by
        have h0 := h 0 (by omega)
        simpa using h0
      rw [driver_dvar_verify_go, if_pos he]
      refine (ih (i + 1)).mpr ?_
      intro k hk
      have hx := h (k + 1) (by omega)
      have e1 : i + (k + 1) = i + 1 + k := by omega
      rw [e1] at hx
      exact hx

/-- Claim C7: for every declared input type (with its outer tuple
parentheses, so of length at least 2) and every incoming signature,
verification succeeds exactly when the signature equals the type with
the outer parentheses stripped, character for character; any mismatch
yields UNEXPECTED_SIGNATURE. -/
theorem c7_signature_verify_strip (type signature : List Char)
    (h2 : 2 ≤ type.length) :
    (driver_dvar_verify_signature_in type signature = .ok () ↔
      signature = stripOuterParens type) ∧
    (driver_dvar_verify_signature_in type signature = .ok () ∨
      driver_dvar_verify_signature_in type signature
        = .error .unexpected_signature) := by
  have hstriplen : (stripOuterParens type).length = type.length - 2 := by
    simp [stripOuterParens]
    omega
  constructor
  · constructor
    · intro h
      unfold driver_dvar_verify_signature_in at h
      by_cases hlen : type.length ≠ signature.length + 2
      · rw [if_pos hlen] at h
        cases h
      · rw [if_neg hlen] at h
        push_neg at hlen
        by_cases hloop :
            driver_dvar_verify_go type signature 1 (type.length - 2) = true
        · have hpt :=
            (driver_dvar_verify_go_iff type signature (type.length - 2) 1).mp hloop
          apply List.ext_getElem
          · omega
          · intro n h1 hstrip
            have hk := hpt n (by omega)
            have e1 : 1 + n - 1 = n := by omega
            rw [e1] at hk
            rw [Nat.add_comm 1 n] at hk
            rw [List.getD_eq_getElem signature 'A' (by omega : n < signature.length)] at hk
            rw [List.getD_eq_getElem type 'A' (by omega : n + 1 < type.length)] at hk
            simpa [stripOuterParens, Nat.add_comm] using hk
        · rw [if_neg hloop] at h
          cases h
    · intro h
      have hl : signature.length = type.length - 2 := by
        rw [h, hstriplen]
      subst h
      unfold driver_dvar_verify_signature_in
      rw [if_neg (by omega : ¬type.length ≠ (stripOuterParens type).length + 2)]
      have hgo : driver_dvar_verify_go type (stripOuterParens type) 1
          (type.length - 2) = true := by
        refine (driver_dvar_verify_go_iff type (stripOuterParens type)
          (type.length - 2) 1).mpr ?_
        intro k hk
        have e1 : 1 + k - 1 = k := by omega
        rw [e1, Nat.add_comm 1 k]
        rw [List.getD_eq_getElem (stripOuterParens type) 'A'
          (by omega : k < (stripOuterParens type).length)]
        rw [List.getD_eq_getElem type 'A' (by omega : k + 1 < type.length)]
        simp [stripOuterParens, Nat.add_comm]
      rw [if_pos hgo]
  · unfold driver_dvar_verify_signature_in
    by_cases hlen : type.length ≠ signature.length + 2
    · rw [if_pos hlen]
      exact Or.inr rfl
    · rw [if_neg hlen]
      by_cases hloop :
          driver_dvar_verify_go type signature 1 (type.length - 2) = true
      · rw [if_pos hloop]
        exact Or.inl rfl
      · rw [if_neg hloop]
        exact Or.inr rfl

/-- Witness for C7 on the RequestName input type (su). -/
theorem c7_signature_verify_strip_witness :
    2 ≤ (("(su)").toList).length ∧
    (driver_dvar_verify_signature_in (("(su)").toList) (("su").toList)
        = .ok () ↔
      ("su").toList = stripOuterParens (("(su)").toList)) :=
  ⟨by decide,
   (c7_signature_verify_strip (("(su)").toList) (("su").toList) (by decide)).1⟩

/-- Claim C4: for every name-ownership transition notified through the
driver (old owner, new owner or both present), the NameLost unicast is
present exactly when an old owner exists and precedes the
NameOwnerChanged signal, which precedes the NameAcquired unicast,
present exactly when a new owner exists. -/
theorem c4_name_change_signal_order (name : Option String)
    (old_owner new_owner : Option Nat)
    (h : old_owner.isSome = true ∨ new_owner.isSome = true) :
    ((driver_name_owner_changed name old_owner new_owner).any
      Event.isNameLost = old_owner.isSome) ∧
    ((driver_name_owner_changed name old_owner new_owner).any
      Event.isNameOwnerChangedSignal = true) ∧
    ((driver_name_owner_changed name old_owner new_owner).any
      Event.isNameAcquired = new_owner.isSome) ∧
    (∀ i j : Nat,
      (eventAt (driver_name_owner_changed name old_owner new_owner) i
          Event.isNameLost = true →
        eventAt (driver_name_owner_changed name old_owner new_owner) j
          Event.isNameOwnerChangedSignal = true → i < j) ∧
      (eventAt (driver_name_owner_changed name old_owner new_owner) i
          Event.isNameOwnerChangedSignal = true →
        eventAt (driver_name_owner_changed name old_owner new_owner) j
          Event.isNameAcquired = true → i < j)) := by
  rcases old_owner with _ | o <;> rcases new_owner with _ | n
  · simp at h
  all_goals
    refine ⟨?_, ?_, ?_, ?_⟩ <;>
    · first
      | (intro i j
         rcases i with _ | _ | _ | i <;> rcases j with _ | _ | _ | j <;>
           simp [driver_name_owner_changed, driver_notify_name_lost,
             driver_notify_name_owner_changed, driver_notify_name_acquired,
             eventAt, Event.isNameLost, Event.isNameOwnerChangedSignal,
             Event.isNameAcquired])
      | simp [driver_name_owner_changed, driver_notify_name_lost,
          driver_notify_name_owner_changed, driver_notify_name_acquired,
          Event.isNameLost, Event.isNameOwnerChangedSignal,
          Event.isNameAcquired]

/-- Witness for C4 on the transition of a name from peer 1 to peer 2. -/
theorem c4_name_change_signal_order_witness :
    ((driver_name_owner_changed (some ("com.example.Foo")) (some 1)
      (some 2)).any Event.isNameLost = true) ∧
    ((driver_name_owner_changed (some ("com.example.Foo")) (some 1)
      (some 2)).any Event.isNameAcquired = true) :=
  ⟨(c4_name_change_signal_order (some ("com.example.Foo")) (some 1) (some 2)
      (Or.inl rfl)).1,
   (c4_name_change_signal_order (some ("com.example.Foo")) (some 1) (some 2)
      (Or.inl rfl)).2.2.1⟩

/-- The Hello row (no registration requirement) is found by the
interface scan even for an unregistered peer. -/
theorem hello_row_found_without_interface :
    driver_find_method false none ("Hello")
      = .ok ⟨("Hello"), false, none, ("()")⟩ := by
  rfl

/-- The Hello row is likewise found through the org.freedesktop.DBus
interface table for an unregistered peer. -/
theorem hello_row_found_dbus_interface :
    driver_find_method false (some ("org.freedesktop.DBus")) ("Hello")
      = .ok ⟨("Hello"), false, none, ("()")⟩ := by
  rfl

/-- Dispatching the Hello call through the interface dispatcher for an
unregistered peer runs the Hello handler. -/
theorem hello_dispatch_eq (peer : Peer) (serial : Nat)
    (hreg : peer.registered = false) :
    driver_dispatch_interface driver_method_hello peer none ("Hello")
        ("/org/freedesktop/DBus") ("") serial true true
      = (.ok, { peer with registered := true },
         (driver_send_reply peer.id serial).2 ++
           driver_name_owner_changed none none (some peer.id)) := by
  have hfind := hello_row_found_without_interface
  simp [driver_dispatch_interface, hreg, hfind, driver_handle_method,
    driver_method_hello]
  rfl

/-- Claim C3: for method calls addressed to org.freedesktop.DBus from a
peer that has not yet registered, exactly UNEXPECTED_INTERFACE and
UNEXPECTED_METHOD are remapped to PEER_NOT_YET_REGISTERED (no other code
is remapped, and nothing is remapped for registered peers), and a Hello
call — found with or without an explicit interface, with no registration
requirement — succeeds and registers the peer. -/
theorem c3_prehello_remap_and_hello (e : DriverErr) (peer : Peer)
    (serial : Nat) (he1 : e ≠ .unexpected_interface)
    (he2 : e ≠ .unexpected_method) (hreg : peer.registered = false) :
    driver_dispatch_dbus false (.err e) = .err e ∧
    driver_dispatch_dbus false (.err .unexpected_interface)
      = .err .peer_not_yet_registered ∧
    driver_dispatch_dbus false (.err .unexpected_method)
      = .err .peer_not_yet_registered ∧
    (∀ x : DriverResult, driver_dispatch_dbus true x = x) ∧
    driver_find_method false (some ("org.freedesktop.DBus")) ("Hello")
      = driver_find_method false none ("Hello") ∧
    (driver_dispatch_interface driver_method_hello peer none ("Hello")
      ("/org/freedesktop/DBus") ("") serial true true).1 = .ok ∧
    driver_dispatch_dbus peer.registered
      ((driver_dispatch_interface driver_method_hello peer none ("Hello")
        ("/org/freedesktop/DBus") ("") serial true true).1) = .ok ∧
    (driver_dispatch_interface driver_method_hello peer none ("Hello")
      ("/org/freedesktop/DBus") ("") serial true true).2.1.registered
      = true := by
  have hd := hello_dispatch_eq peer serial hreg
  refine ⟨?_, rfl, rfl, ?_, ?_, ?_, ?_, ?_⟩
  · simp [driver_dispatch_dbus, he1, he2]
  · intro x
    cases x <;> simp [driver_dispatch_dbus]
  · rw [hello_row_found_dbus_interface, hello_row_found_without_interface]
  · rw [hd]
  · rw [hd, hreg]
    rfl
  · rw [hd]

/-- Witness for C3: the fresh peer 12 issues Hello and gets registered;
QUOTA is not remapped for unregistered peers. -/
theorem c3_prehello_remap_and_hello_witness :
    driver_dispatch_dbus false (.err .quota) = .err .quota ∧
    (driver_dispatch_interface driver_method_hello c3Peer none ("Hello")
      ("/org/freedesktop/DBus") ("") 4 true true).1 = .ok ∧
    (driver_dispatch_interface driver_method_hello c3Peer none ("Hello")
      ("/org/freedesktop/DBus") ("") 4 true true).2.1.registered = true :=
  ⟨(c3_prehello_remap_and_hello .quota c3Peer 4 (by decide) (by decide)
      rfl).1,
   (c3_prehello_remap_and_hello .quota c3Peer 4 (by decide) (by decide)
      rfl).2.2.2.2.2.1,
   (c3_prehello_remap_and_hello .quota c3Peer 4 (by decide) (by decide)
      rfl).2.2.2.2.2.2.2⟩

/-- Claim C8: goodbye is idempotent.  For a peer in one lifecycle state
(not simultaneously registered and monitor), a second driver_goodbye on
the peer already torn down by a first goodbye — either run with any
silent flag — changes neither the bus nor the peer and emits nothing. -/
theorem c8_goodbye_idempotent (bus : BusState) (p : Peer) (s1 s2 : Bool)
    (h : p.registered = false ∨ p.monitor = false) :
    driver_goodbye (driver_goodbye bus p s1).1 (driver_goodbye bus p s1).2.1 s2
      = ((driver_goodbye bus p s1).1, (driver_goodbye bus p s1).2.1, []) := by
  obtain ⟨id, reg, mon, priv, om, orp, sm, ons, noc, rs⟩ := p
  cases reg
  · cases mon <;> cases s1 <;> cases s2 <;> rfl
  · rcases h with h | h
    · cases h
    · simp only at h
      subst h
      cases s1 <;> cases s2 <;> rfl

/-- Witness for C8 on the concrete registered peer 9 (silent first
goodbye, non-silent second). -/
theorem c8_goodbye_idempotent_witness :
    driver_goodbye (driver_goodbye c1Bus c1Peer true).1
        (driver_goodbye c1Bus c1Peer true).2.1 false
      = ((driver_goodbye c1Bus c1Peer true).1,
         (driver_goodbye c1Bus c1Peer true).2.1, []) :=
  c8_goodbye_idempotent c1Bus c1Peer true false (Or.inr rfl)

/-- Counterexample to claim C1 as stated: peer 9 (privileged, owning
com.example.Foo) successfully completes BecomeMonitor, yet the emitted
trace contains a NameLost for its name — the goodbye performed by the
code is not silent, contradicting the claimed goodbye(silent=true) with
no NameLost emission. -/
theorem c1_counterexample :
    (driver_method_become_monitor c1Bus c1Peer 4 [("")] 0 true true).1
      = .ok ∧
    Event.nameLost 9 ("com.example.Foo") ∈
      (driver_method_become_monitor c1Bus c1Peer 4 [("")] 0 true true).2.2.2 := by
  constructor
  · rfl
  · decide

/-- Claim C1 (amended): for every privileged peer that successfully
completes BecomeMonitor, the driver first sends the method reply, then
performs goodbye with silent=false — so releasing the peer's names emits
the usual NameLost and NameOwnerChanged signals and a disappearance
name-change — and only then promotes the post-goodbye peer to monitor
state with the new match set. -/
theorem c1_amended_become_monitor (bus : BusState) (p : Peer)
    (serial : Nat) (rules : List String) (hpriv : p.privileged = true) :
    driver_method_become_monitor bus p serial rules 0 true true
      = (.ok, (driver_goodbye bus p false).1,
         peer_become_monitor (driver_goodbye bus p false).2.1
           (if rules.isEmpty then [("")] else rules),
         (driver_send_reply p.id serial).2 ++
           (driver_goodbye bus p false).2.2) ∧
    (peer_become_monitor (driver_goodbye bus p false).2.1
      (if rules.isEmpty then [("")] else rules)).monitor = true := by
  constructor
  · simp [driver_method_become_monitor, hpriv]
  · simp [peer_become_monitor]

/-- Witness for the amended C1 on the concrete privileged peer 9. -/
theorem c1_amended_become_monitor_witness :
    driver_method_become_monitor c1Bus c1Peer 4 [("")] 0 true true
      = (.ok, (driver_goodbye c1Bus c1Peer false).1,
         peer_become_monitor (driver_goodbye c1Bus c1Peer false).2.1
           (if ([("")] : List String).isEmpty then [("")] else [("")]),
         (driver_send_reply c1Peer.id 4).2 ++
           (driver_goodbye c1Bus c1Peer false).2.2) ∧
    (peer_become_monitor (driver_goodbye c1Bus c1Peer false).2.1
      (if ([("")] : List String).isEmpty then [("")] else [("")])).monitor
      = true :=
  c1_amended_become_monitor c1Bus c1Peer 4 [("")] rfl
